import Mathlib

/-!
Shallow embedding of the chain-aware contract-interaction controller in
src/Hackathon/7702-LaunchPad/react-front/src/hooks/useRecordContractPlatform.ts.

Modelling choices:
- Addresses and transaction hashes are strings, exactly as in the source.
- The React state pair (isPending, children) is threaded explicitly as a
  HookState value; each operation returns (result, final state, trace of
  network calls it issued), so that claims about aborting before any network
  interaction become claims about the trace being empty.
- The outcome of each external call (walletClient.writeContract,
  publicClient.readContract) is an oracle parameter of type Except String _;
  passing Except.error models the promise rejecting.
- JS truthiness of optional address strings (undefined and the empty string
  are falsy, used by the checks and by the defaulting idiom a or b) is
  modelled by truthyOpt and orFalsy.
- Number(bigint) is modelled by jsNumberOfNat, round-to-nearest-even at 53
  bits of mantissa for values at or above 2 to the 53.
-/

namespace RecordContractPlatform

abbrev Address := String

def zeroAddress : Address := "0x0000000000000000000000000000000000000000"

/-- An entry of the owner registry: childEOA plus role. -/
structure Child where
  childEOA : Address
  role : String
deriving DecidableEq, Repr

/-- The React state owned by the hook: useState(false) and useState([]). -/
structure HookState where
  isPending : Bool
  children : List Child
deriving DecidableEq, Repr

/-- Ambient context of the hook: userAddress and chainId from useContracts,
presence of walletClient from useWallet. -/
structure HookCtx where
  userAddress : Option Address
  chainId : Int
  walletConnected : Bool
deriving DecidableEq, Repr

/-- The chain object attached to a client (viem sepolia or hardhat). -/
inductive ChainRef
  | hardhat
  | sepolia
deriving DecidableEq, Repr

/-- Transport given to createPublicClient: an explicit URL, or the default
public endpoint of the chosen chain. -/
inductive TransportCfg
  | httpUrl (url : String)
  | httpDefault
deriving DecidableEq, Repr

/-- Result of createPublicClient as far as configuration is observable. -/
structure PublicClientCfg where
  chain : ChainRef
  transport : TransportCfg
deriving DecidableEq, Repr

/-- One network interaction: a signed write through the wallet transport or a
read through the public client. -/
inductive NetCall
  | write (functionName : String) (args : List String) (address : Address)
      (account : Address) (chain : ChainRef)
  | read (functionName : String) (args : List String) (address : Address)
deriving DecidableEq, Repr

/-- Errors a write operation can raise: the three distinct precondition
errors thrown by addChild and removeChild, and a propagated rejection of
walletClient.writeContract. -/
inductive HookError
  | configurationError
  | connectionError
  | identityError
  | submissionError (msg : String)
deriving DecidableEq, Repr

/-- getContractAddress: switch on chainId with two recognized cases and a
default, all returning address literals. -/
def getContractAddress (chainId : Int) : Address :=
  if chainId = 11155111 then "0xB1Db2211cB3bFAe1fB676104cA21f236F832435D"
  else if chainId = 31337 then zeroAddress
  else zeroAddress

/-- The chain ternary used by getPublicClient, addChild and removeChild. -/
def chainOf (chainId : Int) : ChainRef :=
  if chainId = 31337 then ChainRef.hardhat else ChainRef.sepolia

/-- getPublicClient: hardhat with the loopback URL for 31337, otherwise
sepolia with the default http transport. -/
def getPublicClient (chainId : Int) : PublicClientCfg :=
  { chain := chainOf chainId
  , transport :=
      if chainId = 31337 then TransportCfg.httpUrl "http://127.0.0.1:8545"
      else TransportCfg.httpDefault }

/-- The guard shared by every operation: not contractAddress, or
contractAddress equal to the zero literal. -/
def contractUnset (a : Address) : Bool :=
  a = "" || a = zeroAddress

/-- JS truthiness of an optional address: undefined and the empty string are
falsy; returns the value exactly when it is truthy. -/
def truthyOpt (a : Option String) : Option String :=
  match a with
  | none => none
  | some s => if s = "" then none else some s

/-- The JS defaulting idiom: first operand unless it is falsy. -/
def orFalsy (a b : Option String) : Option String :=
  match a with
  | some s => if s = "" then b else some s
  | none => b

/-- fetchChildren: short-circuit on unset contract or unresolvable target,
otherwise read getChildren; on success replace children, on failure catch
and return the empty list leaving state untouched. -/
def fetchChildren (ctx : HookCtx) (readResult : Except String (List Child))
    (ownerAddress : Option Address) (st : HookState) :
    List Child × HookState × List NetCall :=
  let contractAddress := getContractAddress ctx.chainId
  if contractUnset contractAddress then ([], st, [])
  else
    match truthyOpt (orFalsy ownerAddress ctx.userAddress) with
    | none => ([], st, [])
    | some targetAddress =>
      let call := NetCall.read "getChildren" [targetAddress] contractAddress
      match readResult with
      | Except.ok result => (result, { st with children := result }, [call])
      | Except.error _ => ([], st, [call])

/-- getChildByRole: same short-circuits, then read getChildByRole and map the
zero-address sentinel to none; failures are caught and give none. -/
def getChildByRole (ctx : HookCtx) (readResult : Except String Address)
    (role : String) (ownerAddress : Option Address) (st : HookState) :
    Option Address × HookState × List NetCall :=
  let contractAddress := getContractAddress ctx.chainId
  if contractUnset contractAddress then (none, st, [])
  else
    match truthyOpt (orFalsy ownerAddress ctx.userAddress) with
    | none => (none, st, [])
    | some targetAddress =>
      let call := NetCall.read "getChildByRole" [targetAddress, role] contractAddress
      match readResult with
      | Except.ok result =>
          (if result = zeroAddress then none else some result, st, [call])
      | Except.error _ => (none, st, [call])

/-- Round n to a multiple of 2 to the k, ties to even quotient. -/
def roundNearestEven (n k : Nat) : Nat :=
  let q := n / 2 ^ k
  let r := n % 2 ^ k
  let half := 2 ^ k / 2
  if half < r then (q + 1) * 2 ^ k
  else if r < half then q * 2 ^ k
  else if q % 2 = 0 then q * 2 ^ k
  else (q + 1) * 2 ^ k

/-- Floor of the base-2 logarithm, fuel-based so it reduces in the kernel. -/
def log2Floor : Nat → Nat → Nat
  | 0, _ => 0
  | fuel + 1, n => if 2 ≤ n then log2Floor fuel (n / 2) + 1 else 0

/-- Number(bigint) for nonnegative inputs below the double overflow
threshold: exact below 2 to the 53, rounded to 53 bits of mantissa above. -/
def jsNumberOfNat (n : Nat) : Nat :=
  if n < 2 ^ 53 then n
  else roundNearestEven n (log2Floor n n - 52)

/-- getChildrenCount: same short-circuits returning 0, then read
getChildrenCount and convert the bigint with Number; failures give 0. -/
def getChildrenCount (ctx : HookCtx) (readResult : Except String Nat)
    (ownerAddress : Option Address) (st : HookState) :
    Nat × HookState × List NetCall :=
  let contractAddress := getContractAddress ctx.chainId
  if contractUnset contractAddress then (0, st, [])
  else
    match truthyOpt (orFalsy ownerAddress ctx.userAddress) with
    | none => (0, st, [])
    | some targetAddress =>
      let call := NetCall.read "getChildrenCount" [targetAddress] contractAddress
      match readResult with
      | Except.ok result => (jsNumberOfNat result, st, [call])
      | Except.error _ => (0, st, [call])

/-- isChildOf: same short-circuits returning false, then read isChildOf and
return the boolean; failures give false. -/
def isChildOf (ctx : HookCtx) (readResult : Except String Bool)
    (childAddress : Address) (ownerAddress : Option Address) (st : HookState) :
    Bool × HookState × List NetCall :=
  let contractAddress := getContractAddress ctx.chainId
  if contractUnset contractAddress then (false, st, [])
  else
    match truthyOpt (orFalsy ownerAddress ctx.userAddress) with
    | none => (false, st, [])
    | some targetAddress =>
      let call := NetCall.read "isChildOf" [targetAddress, childAddress] contractAddress
      match readResult with
      | Except.ok result => (result, st, [call])
      | Except.error _ => (false, st, [call])

/-- The try-finally block of addChild, entered after the preconditions with
isPending already set: submit the write, on success await fetchChildren with
no argument and return the hash, resetting isPending on both exits. -/
def addChildBody (ctx : HookCtx) (writeResult : Except String String)
    (readResult : Except String (List Child))
    (childAddress : Address) (role : String)
    (contractAddress userAddr : Address) (st : HookState) :
    Except HookError String × HookState × List NetCall :=
  let call := NetCall.write "addChild" [childAddress, role] contractAddress
      userAddr (chainOf ctx.chainId)
  match writeResult with
  | Except.error e =>
      (Except.error (HookError.submissionError e),
        { st with isPending := false }, [call])
  | Except.ok hash =>
      let res := fetchChildren ctx readResult none st
      (Except.ok hash, { res.2.1 with isPending := false }, call :: res.2.2)

/-- addChild: the three precondition checks in source order, then the
try-finally body started from the state with isPending set to true. -/
def addChild (ctx : HookCtx) (writeResult : Except String String)
    (readResult : Except String (List Child))
    (childAddress : Address) (role : String) (st : HookState) :
    Except HookError String × HookState × List NetCall :=
  let contractAddress := getContractAddress ctx.chainId
  if contractUnset contractAddress then
    (Except.error HookError.configurationError, st, [])
  else if !ctx.walletConnected then
    (Except.error HookError.connectionError, st, [])
  else
    match truthyOpt ctx.userAddress with
    | none => (Except.error HookError.identityError, st, [])
    | some userAddr =>
        addChildBody ctx writeResult readResult childAddress role
          contractAddress userAddr { st with isPending := true }

/-- The try-finally block of removeChild, mirroring addChildBody. -/
def removeChildBody (ctx : HookCtx) (writeResult : Except String String)
    (readResult : Except String (List Child))
    (childAddress : Address)
    (contractAddress userAddr : Address) (st : HookState) :
    Except HookError String × HookState × List NetCall :=
  let call := NetCall.write "removeChild" [childAddress] contractAddress
      userAddr (chainOf ctx.chainId)
  match writeResult with
  | Except.error e =>
      (Except.error (HookError.submissionError e),
        { st with isPending := false }, [call])
  | Except.ok hash =>
      let res := fetchChildren ctx readResult none st
      (Except.ok hash, { res.2.1 with isPending := false }, call :: res.2.2)

/-- removeChild: same precondition checks in the same order, then its
try-finally body from the state with isPending set to true. -/
def removeChild (ctx : HookCtx) (writeResult : Except String String)
    (readResult : Except String (List Child))
    (childAddress : Address) (st : HookState) :
    Except HookError String × HookState × List NetCall :=
  let contractAddress := getContractAddress ctx.chainId
  if contractUnset contractAddress then
    (Except.error HookError.configurationError, st, [])
  else if !ctx.walletConnected then
    (Except.error HookError.connectionError, st, [])
  else
    match truthyOpt ctx.userAddress with
    | none => (Except.error HookError.identityError, st, [])
    | some userAddr =>
        removeChildBody ctx writeResult readResult childAddress
          contractAddress userAddr { st with isPending := true }

/-- All three write preconditions hold at once. -/
def writePreconditionsOk (ctx : HookCtx) : Bool :=
  !contractUnset (getContractAddress ctx.chainId) &&
    ctx.walletConnected && (truthyOpt ctx.userAddress).isSome

/-- Claim C7: getContractAddress is a pure total function of the network id:
the two recognized ids map to their configured literals (31337 configured
but still unset), every unrecognized id maps to the zero sentinel, and no
input produces an error. -/
theorem getContractAddress_total :
    getContractAddress 11155111 = "0xB1Db2211cB3bFAe1fB676104cA21f236F832435D" ∧
    getContractAddress 31337 = zeroAddress ∧
    ∀ chainId : Int, chainId ≠ 11155111 → chainId ≠ 31337 →
      getContractAddress chainId = zeroAddress := by
  refine ⟨rfl, rfl, fun c h1 h2 => ?_⟩
  simp [getContractAddress, h1, h2]

/-- Witness for C7 at the concrete unrecognized network id 5. -/
theorem getContractAddress_total_witness :
    getContractAddress 5 = zeroAddress :=
  getContractAddress_total.2.2 5 (by decide) (by decide)

/-- Claim C8: getPublicClient is total over all network ids: 31337 resolves
to hardhat with the fixed loopback endpoint, and every other id resolves to
the sepolia chain with its default public http transport. -/
theorem getPublicClient_total :
    getPublicClient 31337 =
      { chain := ChainRef.hardhat
      , transport := TransportCfg.httpUrl "http://127.0.0.1:8545" } ∧
    ∀ chainId : Int, chainId ≠ 31337 →
      getPublicClient chainId =
        { chain := ChainRef.sepolia, transport := TransportCfg.httpDefault } := by
  refine ⟨rfl, fun c h => ?_⟩
  simp [getPublicClient, chainOf, h]

/-- Witness for C8 at the concrete non-local network id 1. -/
theorem getPublicClient_total_witness :
    getPublicClient 1 =
      { chain := ChainRef.sepolia, transport := TransportCfg.httpDefault } :=
  getPublicClient_total.2 1 (by decide)

/-- Claim C6: when the by-role query succeeds, getChildByRole returns none
exactly on the sentinel zero address and passes any other returned address
through unchanged. -/
theorem getChildByRole_sentinel (ctx : HookCtx) (a : Address) (role : String)
    (ownerAddress : Option Address) (st : HookState) (target : Address)
    (hc : contractUnset (getContractAddress ctx.chainId) = false)
    (ht : truthyOpt (orFalsy ownerAddress ctx.userAddress) = some target) :
    (getChildByRole ctx (Except.ok a) role ownerAddress st).1 =
      if a = zeroAddress then none else some a := by
  simp [getChildByRole, hc, ht]

/-- Witness for C6: the sentinel maps to none, a nonzero address passes
through. -/
theorem getChildByRole_sentinel_witness :
    (getChildByRole ⟨some "0xowner", 11155111, true⟩ (Except.ok zeroAddress)
        "admin" none ⟨false, []⟩).1 =
      (if zeroAddress = zeroAddress then none else some zeroAddress) ∧
    (getChildByRole ⟨some "0xowner", 11155111, true⟩ (Except.ok "0xabc")
        "admin" none ⟨false, []⟩).1 =
      (if "0xabc" = zeroAddress then none else some ("0xabc" : Address)) :=
  ⟨getChildByRole_sentinel ⟨some "0xowner", 11155111, true⟩ zeroAddress "admin"
      none ⟨false, []⟩ "0xowner" (by decide) (by decide),
   getChildByRole_sentinel ⟨some "0xowner", 11155111, true⟩ "0xabc" "admin"
      none ⟨false, []⟩ "0xowner" (by decide) (by decide)⟩

/-- Claim C9: when the count query succeeds, getChildrenCount returns the
on-chain bigint converted by Number, and for any count within the exactly
representable double range the conversion is the identity: the count is
returned without overflow or rounding. -/
theorem getChildrenCount_exact (ctx : HookCtx) (n : Nat)
    (ownerAddress : Option Address) (st : HookState) (target : Address)
    (hc : contractUnset (getContractAddress ctx.chainId) = false)
    (ht : truthyOpt (orFalsy ownerAddress ctx.userAddress) = some target)
    (hn : n < 2 ^ 53) :
    (getChildrenCount ctx (Except.ok n) ownerAddress st).1 = n := by
  simp [getChildrenCount, hc, ht, jsNumberOfNat, hn]
  exact fun h => absurd hn (Nat.not_lt.mpr h)

/-- Witness for C9 at the concrete count 7. -/
theorem getChildrenCount_exact_witness :
    (getChildrenCount ⟨some "0xowner", 11155111, true⟩ (Except.ok 7)
        none ⟨false, []⟩).1 = 7 :=
  getChildrenCount_exact ⟨some "0xowner", 11155111, true⟩ 7 none ⟨false, []⟩
    "0xowner" (by decide) (by decide) (by decide)

/-- Claim C10: when the network read inside fetchChildren fails, the call
returns the empty list while leaving the whole state, children included,
exactly as it was; whenever the prior cache is nonempty the returned default
therefore differs from the observable children state. -/
theorem fetchChildren_failure_keeps_cache (ctx : HookCtx) (e : String)
    (ownerAddress : Option Address) (st : HookState) (target : Address)
    (hc : contractUnset (getContractAddress ctx.chainId) = false)
    (ht : truthyOpt (orFalsy ownerAddress ctx.userAddress) = some target) :
    (fetchChildren ctx (Except.error e) ownerAddress st).1 = [] ∧
    (fetchChildren ctx (Except.error e) ownerAddress st).2.1 = st ∧
    (st.children ≠ [] →
      (fetchChildren ctx (Except.error e) ownerAddress st).1 ≠
        (fetchChildren ctx (Except.error e) ownerAddress st).2.1.children) := by
  refine ⟨by simp [fetchChildren, hc, ht], by simp [fetchChildren, hc, ht], ?_⟩
  intro h
  simp [fetchChildren, hc, ht]
  exact h

/-- Witness for C10: a failing read with a nonempty prior cache returns the
empty list while the cache keeps its entry. -/
theorem fetchChildren_failure_keeps_cache_witness :
    (fetchChildren ⟨some "0xowner", 11155111, true⟩ (Except.error "timeout")
        none ⟨false, [⟨"0xa", "admin"⟩]⟩).1 = [] ∧
    (fetchChildren ⟨some "0xowner", 11155111, true⟩ (Except.error "timeout")
        none ⟨false, [⟨"0xa", "admin"⟩]⟩).2.1 = ⟨false, [⟨"0xa", "admin"⟩]⟩ :=
  ⟨(fetchChildren_failure_keeps_cache ⟨some "0xowner", 11155111, true⟩ "timeout"
      none ⟨false, [⟨"0xa", "admin"⟩]⟩ "0xowner" (by decide) (by decide)).1,
   (fetchChildren_failure_keeps_cache ⟨some "0xowner", 11155111, true⟩ "timeout"
      none ⟨false, [⟨"0xa", "admin"⟩]⟩ "0xowner" (by decide) (by decide)).2.1⟩

/-- Claim C1: for every call to addChild or removeChild the preconditions
are checked in source order: an unset contract raises configurationError;
otherwise a missing wallet raises connectionError; otherwise a missing
authenticated account raises identityError; each failure leaves the state
untouched and issues zero network calls. -/
theorem write_preconditions_ordered (ctx : HookCtx)
    (w : Except String String) (r : Except String (List Child))
    (c : Address) (role : String) (st : HookState) :
    (contractUnset (getContractAddress ctx.chainId) = true →
      addChild ctx w r c role st =
        (Except.error HookError.configurationError, st, []) ∧
      removeChild ctx w r c st =
        (Except.error HookError.configurationError, st, [])) ∧
    (contractUnset (getContractAddress ctx.chainId) = false →
      ctx.walletConnected = false →
      addChild ctx w r c role st =
        (Except.error HookError.connectionError, st, []) ∧
      removeChild ctx w r c st =
        (Except.error HookError.connectionError, st, [])) ∧
    (contractUnset (getContractAddress ctx.chainId) = false →
      ctx.walletConnected = true →
      truthyOpt ctx.userAddress = none →
      addChild ctx w r c role st =
        (Except.error HookError.identityError, st, []) ∧
      removeChild ctx w r c st =
        (Except.error HookError.identityError, st, [])) := by
  refine ⟨fun h1 => ?_, fun h1 h2 => ?_, fun h1 h2 h3 => ?_⟩ <;>
    simp [addChild, removeChild, *]

/-- Witness for C1: with chainId 31337 the resolved address is the zero
sentinel, so addChild aborts with configurationError, unchanged state and an
empty trace even though a wallet and an account are present. -/
theorem write_preconditions_ordered_witness :
    addChild ⟨some "0xuser", 31337, true⟩ (Except.ok "0xtx") (Except.ok [])
        "0xchild" "admin" ⟨false, []⟩ =
      (Except.error HookError.configurationError, ⟨false, []⟩, []) :=
  ((write_preconditions_ordered ⟨some "0xuser", 31337, true⟩ (Except.ok "0xtx")
      (Except.ok []) "0xchild" "admin" ⟨false, []⟩).1 (by decide)).1

/-- Claim C2: every read operation degrades instead of raising: with an
unset contract, or with no resolvable owner, it returns its default (empty
list, none, 0, false) with unchanged state and zero network calls; when the
network read itself fails it returns the same default; the result types of
the four reads carry no error case, so no read raises to the caller. -/
theorem reads_degrade (ctx : HookCtx) (rl : Except String (List Child))
    (ra : Except String Address) (rn : Except String Nat)
    (rb : Except String Bool) (role cand : String)
    (ownerAddress : Option Address) (st : HookState) (e : String) :
    (contractUnset (getContractAddress ctx.chainId) = true →
      fetchChildren ctx rl ownerAddress st = ([], st, []) ∧
      getChildByRole ctx ra role ownerAddress st = (none, st, []) ∧
      getChildrenCount ctx rn ownerAddress st = (0, st, []) ∧
      isChildOf ctx rb cand ownerAddress st = (false, st, [])) ∧
    (truthyOpt (orFalsy ownerAddress ctx.userAddress) = none →
      fetchChildren ctx rl ownerAddress st = ([], st, []) ∧
      getChildByRole ctx ra role ownerAddress st = (none, st, []) ∧
      getChildrenCount ctx rn ownerAddress st = (0, st, []) ∧
      isChildOf ctx rb cand ownerAddress st = (false, st, [])) ∧
    ((fetchChildren ctx (Except.error e) ownerAddress st).1 = [] ∧
      (getChildByRole ctx (Except.error e) role ownerAddress st).1 = none ∧
      (getChildrenCount ctx (Except.error e) ownerAddress st).1 = 0 ∧
      (isChildOf ctx (Except.error e) cand ownerAddress st).1 = false) := by
  refine ⟨fun h1 => ?_, fun h2 => ?_, ?_⟩
  · simp [fetchChildren, getChildByRole, getChildrenCount, isChildOf, h1]
  · cases hcu : contractUnset (getContractAddress ctx.chainId) with
    | true =>
        simp [fetchChildren, getChildByRole, getChildrenCount, isChildOf, hcu]
    | false =>
        simp [fetchChildren, getChildByRole, getChildrenCount, isChildOf,
          hcu, h2]
  · cases hcu : contractUnset (getContractAddress ctx.chainId) with
    | true =>
        simp [fetchChildren, getChildByRole, getChildrenCount, isChildOf, hcu]
    | false =>
        cases hto : truthyOpt (orFalsy ownerAddress ctx.userAddress) with
        | none =>
            simp [fetchChildren, getChildByRole, getChildrenCount, isChildOf,
              hcu, hto]
        | some t =>
            simp [fetchChildren, getChildByRole, getChildrenCount, isChildOf,
              hcu, hto]

/-- Witness for C2: with no explicit owner and no authenticated account,
fetchChildren returns the empty list without touching state or network. -/
theorem reads_degrade_witness :
    fetchChildren ⟨none, 11155111, true⟩ (Except.ok [⟨"0xa", "r"⟩]) none
        ⟨false, []⟩ = ([], ⟨false, []⟩, []) :=
  ((reads_degrade ⟨none, 11155111, true⟩ (Except.ok [⟨"0xa", "r"⟩])
      (Except.ok "0xa") (Except.ok 3) (Except.ok true) "r" "0xc" none
      ⟨false, []⟩ "err").2.1 (by decide)).1

/-- Claim C3: pending discipline: on precondition failure the state is
untouched, so pending is never set; the try-finally bodies end with pending
false on every exit (submission failure included, and refresh failure since
fetchChildren absorbs it); when the preconditions pass the call runs its
body from the state with pending set to true and settles with pending
false. -/
theorem pending_discipline (ctx : HookCtx)
    (w : Except String String) (r : Except String (List Child))
    (c : Address) (role : String) (st : HookState) :
    (writePreconditionsOk ctx = false →
      (addChild ctx w r c role st).2.1 = st ∧
      (removeChild ctx w r c st).2.1 = st) ∧
    (∀ ca ua st1,
      (addChildBody ctx w r c role ca ua st1).2.1.isPending = false ∧
      (removeChildBody ctx w r c ca ua st1).2.1.isPending = false) ∧
    (writePreconditionsOk ctx = true →
      ∀ u, truthyOpt ctx.userAddress = some u →
      addChild ctx w r c role st =
        addChildBody ctx w r c role (getContractAddress ctx.chainId) u
          { st with isPending := true } ∧
      removeChild ctx w r c st =
        removeChildBody ctx w r c (getContractAddress ctx.chainId) u
          { st with isPending := true } ∧
      (addChild ctx w r c role st).2.1.isPending = false ∧
      (removeChild ctx w r c st).2.1.isPending = false) := by
  refine ⟨fun h => ?_, fun ca ua st1 => ?_, fun h u hu => ?_⟩
  · cases hcu : contractUnset (getContractAddress ctx.chainId) with
    | true => simp [addChild, removeChild, hcu]
    | false =>
      cases hw : ctx.walletConnected with
      | false => simp [addChild, removeChild, hcu, hw]
      | true =>
        cases hto : truthyOpt ctx.userAddress with
        | none => simp [addChild, removeChild, hcu, hw, hto]
        | some u => simp [writePreconditionsOk, hcu, hw, hto] at h
  · cases w with
    | error e => simp [addChildBody, removeChildBody]
    | ok hsh => simp [addChildBody, removeChildBody]
  · have h' := h
    simp only [writePreconditionsOk, Bool.and_eq_true, Bool.not_eq_true'] at h'
    obtain ⟨⟨hcu, hw⟩, _⟩ := h'
    refine ⟨by simp [addChild, hcu, hw, hu], by simp [removeChild, hcu, hw, hu],
      ?_, ?_⟩
    · cases w with
      | error e => simp [addChild, addChildBody, hcu, hw, hu]
      | ok hsh => simp [addChild, addChildBody, hcu, hw, hu]
    · cases w with
      | error e => simp [removeChild, removeChildBody, hcu, hw, hu]
      | ok hsh => simp [removeChild, removeChildBody, hcu, hw, hu]

/-- Witness for C3: a fully passing addChild settles with pending false. -/
theorem pending_discipline_witness :
    (addChild ⟨some "0xuser", 11155111, true⟩ (Except.ok "0xtx")
        (Except.ok []) "0xchild" "admin" ⟨false, []⟩).2.1.isPending = false :=
  ((pending_discipline ⟨some "0xuser", 11155111, true⟩ (Except.ok "0xtx")
      (Except.ok []) "0xchild" "admin" ⟨false, []⟩).2.2 (by decide) "0xuser"
      (by decide)).2.2.1

/-- Claim C4: the only errors addChild and removeChild can raise are the
three precondition errors or a propagated rejection of the submission call;
a refresh failure never raises: with preconditions satisfied and a
successful submission the call returns ok for every refresh outcome. -/
theorem write_error_sources (ctx : HookCtx)
    (w : Except String String) (r : Except String (List Child))
    (c : Address) (role : String) (st : HookState) :
    (writePreconditionsOk ctx = true → ∀ hsh, w = Except.ok hsh →
      (addChild ctx w r c role st).1 = Except.ok hsh ∧
      (removeChild ctx w r c st).1 = Except.ok hsh) ∧
    (∀ err, (addChild ctx w r c role st).1 = Except.error err ∨
        (removeChild ctx w r c st).1 = Except.error err →
      err = HookError.configurationError ∨ err = HookError.connectionError ∨
      err = HookError.identityError ∨
      ∃ e, w = Except.error e ∧ err = HookError.submissionError e) := by
  constructor
  · intro h hsh hw
    have h' := h
    simp only [writePreconditionsOk, Bool.and_eq_true, Bool.not_eq_true'] at h'
    obtain ⟨⟨hcu, hwc⟩, hus⟩ := h'
    obtain ⟨u, hu⟩ := Option.isSome_iff_exists.mp hus
    subst hw
    constructor
    · simp [addChild, addChildBody, hcu, hwc, hu]
    · simp [removeChild, removeChildBody, hcu, hwc, hu]
  · intro err herr
    cases hcu : contractUnset (getContractAddress ctx.chainId) with
    | true =>
        simp [addChild, removeChild, hcu] at herr
        exact Or.inl herr.symm
    | false =>
      cases hwc : ctx.walletConnected with
      | false =>
          simp [addChild, removeChild, hcu, hwc] at herr
          exact Or.inr (Or.inl herr.symm)
      | true =>
        cases hto : truthyOpt ctx.userAddress with
        | none =>
            simp [addChild, removeChild, hcu, hwc, hto] at herr
            exact Or.inr (Or.inr (Or.inl herr.symm))
        | some u =>
          cases w with
          | ok hsh =>
              simp [addChild, removeChild, addChildBody, removeChildBody,
                hcu, hwc, hto] at herr
          | error e =>
              simp [addChild, removeChild, addChildBody, removeChildBody,
                hcu, hwc, hto] at herr
              exact Or.inr (Or.inr (Or.inr ⟨e, rfl, herr.symm⟩))

/-- Witness for C4: a failing refresh read does not stop addChild from
returning the submitted transaction hash. -/
theorem write_error_sources_witness :
    (addChild ⟨some "0xuser", 11155111, true⟩ (Except.ok "0xtx")
        (Except.error "rpc down") "0xchild" "admin" ⟨false, []⟩).1 =
      Except.ok "0xtx" :=
  ((write_error_sources ⟨some "0xuser", 11155111, true⟩ (Except.ok "0xtx")
      (Except.error "rpc down") "0xchild" "admin" ⟨false, []⟩).1 (by decide)
      "0xtx" rfl).1

/-- Claim C5: within one passing addChild or removeChild invocation the
trace is exactly the submission followed by the refresh read of getChildren
for the authenticated account, the returned value is exactly the transport
handle, and the settled children are the refreshed list whenever the
refresh read succeeds (and the prior cache when it fails). -/
theorem write_ordering (ctx : HookCtx) (hash : String)
    (r : Except String (List Child)) (c : Address) (role : String)
    (st : HookState) (u : Address)
    (hok : writePreconditionsOk ctx = true)
    (hu : truthyOpt ctx.userAddress = some u) :
    addChild ctx (Except.ok hash) r c role st =
      (Except.ok hash,
        { isPending := false
        , children := match r with
            | Except.ok l => l
            | Except.error _ => st.children },
        [ NetCall.write "addChild" [c, role] (getContractAddress ctx.chainId)
            u (chainOf ctx.chainId)
        , NetCall.read "getChildren" [u] (getContractAddress ctx.chainId) ]) ∧
    removeChild ctx (Except.ok hash) r c st =
      (Except.ok hash,
        { isPending := false
        , children := match r with
            | Except.ok l => l
            | Except.error _ => st.children },
        [ NetCall.write "removeChild" [c] (getContractAddress ctx.chainId)
            u (chainOf ctx.chainId)
        , NetCall.read "getChildren" [u] (getContractAddress ctx.chainId) ]) := by
  have h' := hok
  simp only [writePreconditionsOk, Bool.and_eq_true, Bool.not_eq_true'] at h'
  obtain ⟨⟨hcu, hwc⟩, _⟩ := h'
  cases r with
  | ok l =>
      constructor <;>
        simp [addChild, removeChild, addChildBody, removeChildBody,
          fetchChildren, orFalsy, hcu, hwc, hu]
  | error e =>
      constructor <;>
        simp [addChild, removeChild, addChildBody, removeChildBody,
          fetchChildren, orFalsy, hcu, hwc, hu]

/-- Witness for C5: the concrete passing addChild call returns the handle,
refreshes the cache, and issues exactly the write then the read. -/
theorem write_ordering_witness :
    addChild ⟨some "0xuser", 11155111, true⟩ (Except.ok "0xtx")
        (Except.ok [⟨"0xchild", "admin"⟩]) "0xchild" "admin" ⟨false, []⟩ =
      (Except.ok "0xtx", ⟨false, [⟨"0xchild", "admin"⟩]⟩,
        [ NetCall.write "addChild" ["0xchild", "admin"]
            "0xB1Db2211cB3bFAe1fB676104cA21f236F832435D" "0xuser"
            ChainRef.sepolia
        , NetCall.read "getChildren" ["0xuser"]
            "0xB1Db2211cB3bFAe1fB676104cA21f236F832435D" ]) :=
  (write_ordering ⟨some "0xuser", 11155111, true⟩ "0xtx"
      (Except.ok [⟨"0xchild", "admin"⟩]) "0xchild" "admin" ⟨false, []⟩
      "0xuser" (by decide) (by decide)).1

end RecordContractPlatform
